import Mathlib

/-!
Shallow embedding of `src/src/index.ts` (node-gtoken): the `GoogleToken`
class, its state fields, and the operations `hasExpired`, `configure`,
`getTokenAsync`, `requestToken` and `revokeTokenAsync`.

JavaScript values `null` and `undefined` are both modelled as `none` of an
`Option` (the source only ever tests them for truthiness or assigns them),
an empty string `""` is `some ""` (present but falsy).  Network and file
collaborators (axios, fs) are passed in as explicit outcomes, and each
operation additionally returns how many network calls / credential
resolutions it performed, so that claims about "zero network calls" can be
stated.  Time (`new Date().getTime()`) is passed in as an integer `now` in
milliseconds.
-/

namespace GToken

/-- JavaScript truthiness of an optional string: `undefined`, `null` and
`""` are falsy, every other string truthy. -/
def jsTruthyStr : Option String → Bool
  | some s => s ≠ ""
  | none => false

/-- JavaScript truthiness of an optional number: `undefined`, `null` and
`0` are falsy. -/
def jsTruthyNum : Option Int → Bool
  | some n => n ≠ 0
  | none => false

/-- JavaScript `a || b` on optional strings: yields `a` when `a` is truthy,
otherwise `b` verbatim. -/
def jsOrStr (a b : Option String) : Option String :=
  if jsTruthyStr a then a else b

/-- A JSON/JS value as far as the JWT payload needs: strings, integers, or
`undefined` (a key present in an object literal with value `undefined`). -/
inductive JsValue where
  | str : String → JsValue
  | num : Int → JsValue
  | undefined : JsValue
deriving DecidableEq

/-- An optional string placed into an object literal: `undefined` stays a
present key with value `undefined`. -/
def JsValue.ofOptStr : Option String → JsValue
  | some s => .str s
  | none => .undefined

/-- A JS object, as a total lookup function: `none` means the key is not an
own property. -/
def JsObject := String → Option JsValue

/-- The empty object literal `{}`. -/
def JsObject.empty : JsObject := fun _ => none

/-- `Object.assign(a, b)`: keys of `b` overwrite keys of `a`. -/
def objectAssign (a b : JsObject) : JsObject :=
  fun k => match b k with
  | some v => some v
  | none => a k

/-- `interface TokenData` — the parsed JSON body of a successful token
exchange response (`expires_in` is in seconds). -/
structure TokenData where
  refresh_token : Option String := none
  expires_in : Option Int := none
  access_token : Option String := none
  token_type : Option String := none
  id_token : Option String := none
deriving DecidableEq

/-- `interface Credentials` — result of `getCredentials`. -/
structure Credentials where
  privateKey : String
  clientEmail : Option String := none
deriving DecidableEq

/-- `scope?: string | string[]` in `TokenOptions`. -/
inductive ScopeOpt where
  | str : String → ScopeOpt
  | arr : List String → ScopeOpt

/-- `interface TokenOptions` — the constructor / `configure` argument. -/
structure TokenOptions where
  keyFile : Option String := none
  key : Option String := none
  email : Option String := none
  iss : Option String := none
  sub : Option String := none
  scope : Option ScopeOpt := none
  additionalClaims : Option JsObject := none

/-- The mutable fields of `class GoogleToken`. -/
structure GoogleToken where
  token : Option String
  expiresAt : Option Int
  key : Option String
  keyFile : Option String
  iss : Option String
  sub : Option String
  scope : Option String
  rawToken : Option TokenData
  tokenExpires : Option Int
  email : Option String
  additionalClaims : Option JsObject

/-- The error body `e.response.data` of a failed exchange, when present. -/
structure ErrBody where
  error : Option String := none
  error_description : Option String := none
deriving DecidableEq

/-- A transport-level error from axios: carries the response body when the
server answered with one (`e.response && e.response.data`). -/
structure HttpError where
  responseData : Option ErrBody := none
deriving DecidableEq

/-- The errors the source surfaces: plain `new Error(msg)`, an
`ErrorWithCode(msg, code)`, or an underlying transport error rethrown
unchanged. -/
inductive JsError where
  | simple : String → JsError
  | withCode : String → String → JsError
  | transport : HttpError → JsError
deriving DecidableEq

/-- Outcome of the token-exchange POST, supplied by the environment. -/
inductive ExchangeResult where
  | success : TokenData → ExchangeResult
  | failure : HttpError → ExchangeResult

/-- `const GOOGLE_TOKEN_URL = ...` -/
def GOOGLE_TOKEN_URL : String := "https://www.googleapis.com/oauth2/v4/token"

/--
`hasExpired()`:
```
const now = (new Date()).getTime();
if (this.token && this.expiresAt) { return now >= this.expiresAt; }
else { return true; }
```
-/
def hasExpired (now : Int) (g : GoogleToken) : Bool :=
  if jsTruthyStr g.token && jsTruthyNum g.expiresAt then
    decide (now ≥ g.expiresAt.getD 0)
  else
    true

/--
`private configure(options: TokenOptions = {})`: replaces the
configuration fields from `options`, clears `token`, `expiresAt` and
`rawToken`; `iss = options.email || options.iss`; an array scope is joined
with single spaces.  The fields `tokenExpires` and `email` are not touched.
-/
def configure (options : TokenOptions) (g : GoogleToken) : GoogleToken :=
  { token := none
    expiresAt := none
    rawToken := none
    key := options.key
    keyFile := options.keyFile
    iss := jsOrStr options.email options.iss
    sub := options.sub
    scope :=
      match options.scope with
      | some (.arr l) => some (String.intercalate " " l)
      | some (.str s) => some s
      | none => none
    additionalClaims := options.additionalClaims
    tokenExpires := g.tokenExpires
    email := g.email }

/-- The all-`none` field initializers of a freshly allocated `GoogleToken`
object, before the constructor body runs. -/
def initFields : GoogleToken :=
  { token := none, expiresAt := none, key := none, keyFile := none
    iss := none, sub := none, scope := none, rawToken := none
    tokenExpires := none, email := none, additionalClaims := none }

/-- `constructor(options?: TokenOptions) { this.configure(options); }` -/
def mkGoogleToken (options : TokenOptions) : GoogleToken :=
  configure options initFields

/--
The JWT payload object literal built inside `requestToken()` before the
merge:
`{iss, scope, aud: GOOGLE_TOKEN_URL, exp: iat + 3600, iat, sub}`.
All six keys are present; optional fields appear with value `undefined`.
-/
def stdClaims (iat : Int) (g : GoogleToken) : JsObject := fun k =>
  if k = "iss" then some (JsValue.ofOptStr g.iss)
  else if k = "scope" then some (JsValue.ofOptStr g.scope)
  else if k = "aud" then some (.str GOOGLE_TOKEN_URL)
  else if k = "exp" then some (.num (iat + 3600))
  else if k = "iat" then some (.num iat)
  else if k = "sub" then some (JsValue.ofOptStr g.sub)
  else none

/--
`const payload = Object.assign({iss, scope, aud, exp, iat, sub},
additionalClaims)` with `additionalClaims = this.additionalClaims || {}`.
-/
def requestPayload (iat : Int) (g : GoogleToken) : JsObject :=
  objectAssign (stdClaims iat g) (g.additionalClaims.getD JsObject.empty)

/--
`private async requestToken()`: signs and POSTs the JWT; on a 2xx response
stores `rawToken`, `token = access_token` and
`expiresAt = (iat + expires_in) * 1000` (or `null` when `expires_in` is
absent) and returns the token; on failure sets `token = null` and
`tokenExpires = null`, then throws a synthesized OAuth error when the body
has a truthy `error` field, otherwise rethrows the transport error.
`iat = Math.floor(now / 1000)`.  The exchange outcome is the `resp`
argument; the call always makes exactly one network call, counted by the
caller.
-/
def requestToken (now : Int) (g : GoogleToken) (resp : ExchangeResult) :
    Except JsError (Option String) × GoogleToken :=
  let iat := Int.fdiv now 1000
  match resp with
  | .success rd =>
      let g1 : GoogleToken :=
        { g with
          rawToken := some rd
          token := rd.access_token
          expiresAt :=
            match rd.expires_in with
            | none => none
            | some ei => some ((iat + ei) * 1000) }
      (.ok rd.access_token, g1)
  | .failure e =>
      let g1 : GoogleToken := { g with token := none, tokenExpires := none }
      let body := e.responseData.getD {}
      let err : JsError :=
        if jsTruthyStr body.error then
          let desc :=
            if jsTruthyStr body.error_description then
              ": " ++ body.error_description.getD ""
            else ""
          .simple (body.error.getD "" ++ desc)
        else
          .transport e
      (.error err, g1)

/-- The collaborators one `getToken()` call may consult: the clock, the
outcome of `getCredentials(this.keyFile)` (a file read), and the outcome of
the token-exchange POST. -/
structure Env where
  now : Int
  credResult : Except JsError Credentials
  exchange : ExchangeResult

/--
`private async getTokenAsync()`:
returns the cached token when `!this.hasExpired()`; throws
`No key or keyFile set.` when both `key` and `keyFile` are falsy; resolves
credentials from the key file when `key` is falsy but `keyFile` truthy
(adopting `privateKey` as `key` and `clientEmail || iss` as `iss`, and
throwing `email is required.` when neither is available); then performs
`requestToken()`.  Besides result and state it returns the number of
network calls and of credential resolutions (file reads) performed.
-/
def getTokenAsync (env : Env) (g : GoogleToken) :
    Except JsError (Option String) × GoogleToken × Nat × Nat :=
  if !hasExpired env.now g then
    (.ok g.token, g, 0, 0)
  else if !jsTruthyStr g.key && !jsTruthyStr g.keyFile then
    (.error (.simple "No key or keyFile set."), g, 0, 0)
  else if !jsTruthyStr g.key && jsTruthyStr g.keyFile then
    match env.credResult with
    | .error e => (.error e, g, 0, 1)
    | .ok creds =>
        let g1 : GoogleToken :=
          { g with
            key := some creds.privateKey
            iss := jsOrStr creds.clientEmail g.iss }
        if !jsTruthyStr creds.clientEmail && !jsTruthyStr g1.iss then
          (.error (.withCode "email is required." "MISSING_CREDENTIALS"),
            g1, 0, 1)
        else
          ((requestToken env.now g1 env.exchange).1,
            (requestToken env.now g1 env.exchange).2, 1, 1)
  else
    ((requestToken env.now g env.exchange).1,
      (requestToken env.now g env.exchange).2, 1, 0)

/--
`private async revokeTokenAsync()`: throws `No token to revoke.` when
`this.token` is falsy (no network call); otherwise GETs the revoke
endpoint — on success re-runs `configure` with the current `iss`, `sub`,
`key`, `keyFile`, `scope` and `additionalClaims`, on failure propagates
the error with state untouched.  The third component counts network calls.
-/
def revokeTokenAsync (net : Except JsError Unit) (g : GoogleToken) :
    Except JsError Unit × GoogleToken × Nat :=
  if !jsTruthyStr g.token then
    (.error (.simple "No token to revoke."), g, 0)
  else
    match net with
    | .error e => (.error e, g, 1)
    | .ok _ =>
        let g1 := configure
          { email := g.iss
            sub := g.sub
            key := g.key
            keyFile := g.keyFile
            scope := g.scope.map ScopeOpt.str
            additionalClaims := g.additionalClaims } g
        (.ok (), g1, 1)

/-- Truthiness of an absent string, as a rewrite rule. -/
theorem jsTruthyStr_none_eq : jsTruthyStr none = false := rfl

/-- Truthiness of an absent number, as a rewrite rule. -/
theorem jsTruthyNum_none_eq : jsTruthyNum none = false := rfl

/-! ### Claim C1 -/

/-- A manager constructed with a raw key. -/
def C1g0 : GoogleToken := mkGoogleToken { key := some "PK1", iss := some "me@example.org" }

/-- State after a successful exchange whose response omitted `expires_in`. -/
def C1g1 : GoogleToken :=
  (requestToken 1000 C1g0 (.success { access_token := some "tok1" })).2

/-- C1 counterexample: after a successful exchange that returned
`access_token = "tok1"` but omitted `expires_in`, the manager holds the
token with no `expiresAt`, yet `hasExpired()` returns `true`, not `false`
as the claim states — such a token is not treated as never expired. -/
theorem C1_counterexample :
    C1g1.token = some "tok1" ∧ C1g1.expiresAt = none ∧
    hasExpired 1000 C1g1 = true := by
  refine ⟨rfl, rfl, rfl⟩

/-- C1 (amended): a successful exchange whose response omits `expires_in`
records no `expiresAt`, and `hasExpired()` then returns `true` at every
instant — the token is treated as already expired, indistinguishable from
the no-token state (`hasExpired` requires both a truthy token and a truthy
`expiresAt` to return `false`). -/
theorem C1_no_expiry_means_expired (now now2 : Int) (g : GoogleToken)
    (rd : TokenData) (h : rd.expires_in = none) :
    ((requestToken now g (.success rd)).2).expiresAt = none ∧
    hasExpired now2 (requestToken now g (.success rd)).2 = true := by
  simp [requestToken, hasExpired, jsTruthyNum, h]

/-- C1 witness: the amended theorem applied at the concrete exchange of the
counterexample state. -/
theorem C1_no_expiry_means_expired_witness :
    ((requestToken 1000 C1g0 (.success { access_token := some "tok1" })).2).expiresAt = none ∧
    hasExpired 99999999 (requestToken 1000 C1g0 (.success { access_token := some "tok1" })).2 = true :=
  C1_no_expiry_means_expired 1000 99999999 C1g0 { access_token := some "tok1" } rfl

/-! ### Claim C2 -/

/-- The invariant claimed for `token` and `expiresAt`: null together or
non-null together. -/
def tokenExpiryInv (g : GoogleToken) : Prop :=
  g.token = none ↔ g.expiresAt = none

/-- A manager constructed with a raw key, for the C2 scenario. -/
def C2g0 : GoogleToken := mkGoogleToken { key := some "PK2", iss := some "me@example.org" }

/-- State after a successful exchange carrying `access_token` but no
`expires_in`. -/
def C2g1 : GoogleToken :=
  (requestToken 2000 C2g0 (.success { access_token := some "tok2" })).2

/-- C2 counterexample: the freshly constructed manager satisfies the
invariant, but a successful `requestToken()` whose response carries
`access_token` without `expires_in` leaves `token = some "tok2"` with
`expiresAt = none` — one set without the other. -/
theorem C2_counterexample :
    tokenExpiryInv C2g0 ∧ ¬ tokenExpiryInv C2g1 := by
  unfold tokenExpiryInv
  constructor
  · decide
  · intro h
    exact absurd (h.mpr rfl) (by decide)

/-- C2 (amended): construction and both outcomes of `revokeToken()`
preserve the together-invariant on `token` and `expiresAt`, and a
successful exchange preserves it whenever the response carries
`access_token` and `expires_in` both present or both absent; but an
exchange success with exactly one of the two present, or an exchange
failure after an expiry was recorded, breaks it. -/
theorem C2_invariant_preserved_cases :
    (∀ opts, tokenExpiryInv (mkGoogleToken opts)) ∧
    (∀ net g, tokenExpiryInv g → tokenExpiryInv (revokeTokenAsync net g).2.1) ∧
    (∀ now g rd, (rd.access_token.isSome ↔ rd.expires_in.isSome) →
      tokenExpiryInv (requestToken now g (.success rd)).2) := by
  refine ⟨fun opts => by simp [tokenExpiryInv, mkGoogleToken, configure],
    fun net g h => ?_, fun now g rd h => ?_⟩
  · unfold revokeTokenAsync
    by_cases ht : jsTruthyStr g.token
    · simp only [ht, Bool.not_true, Bool.false_eq_true, if_false]
      cases net with
      | error e => exact h
      | ok u => simp [tokenExpiryInv, configure]
    · simpa [ht] using h
  · unfold tokenExpiryInv requestToken
    cases hat : rd.access_token with
    | none =>
        cases hei : rd.expires_in with
        | none => simp [hat, hei]
        | some ei => simp [hat, hei] at h ⊢
    | some t =>
        cases hei : rd.expires_in with
        | none => simp [hat, hei] at h ⊢
        | some ei => simp [hat, hei]

/-- C2 witness: the amended theorem applied at concrete inputs —
construction with a raw key, a successful revoke on a valid-token state,
and an exchange whose response carries both fields. -/
theorem C2_invariant_preserved_cases_witness :
    tokenExpiryInv (mkGoogleToken { key := some "PK2w" }) ∧
    tokenExpiryInv (revokeTokenAsync (.ok ())
      { C2g0 with token := some "t", expiresAt := some 5000 }).2.1 ∧
    tokenExpiryInv (requestToken 2000 C2g0
      (.success { access_token := some "tokw", expires_in := some 60 })).2 :=
  ⟨C2_invariant_preserved_cases.1 _,
   C2_invariant_preserved_cases.2.1 (.ok ()) _ (by simp [C2g0, mkGoogleToken, configure, tokenExpiryInv]),
   C2_invariant_preserved_cases.2.2 2000 C2g0 _ (by simp)⟩

/-! ### Claim C3 -/

/-- A manager constructed with only a key file — no raw key. -/
def C3g0 : GoogleToken := mkGoogleToken { keyFile := some "key.json" }

/-- Environment for the first `getToken()`: the key file resolves to
private key `"PK3"` and email `"me@x"`, and the exchange succeeds. -/
def C3env1 : Env :=
  { now := 10000
    credResult := .ok { privateKey := "PK3", clientEmail := some "me@x" }
    exchange := .success { access_token := some "tok3", expires_in := some 100 } }

/-- State after that first `getToken()`: key and issuer resolved from the
file, token cached. -/
def C3g1 : GoogleToken := (getTokenAsync C3env1 C3g0).2.1

/-- Environment for a `getToken()` after the revoke. -/
def C3env2 : Env :=
  { now := 20000
    credResult := .ok { privateKey := "PK3", clientEmail := some "me@x" }
    exchange := .success { access_token := some "tok4", expires_in := some 100 } }

/-- C3 counterexample: the manager was constructed with `key = none`
(key-file only), but after a successful `revokeToken()` the key is still
the resolved `"PK3"` — not the original construction-time configuration —
and the subsequent `getToken()` performs zero credential re-resolutions
(no key-file re-read), because `configure` was re-run with the current
fields rather than the constructor arguments. -/
theorem C3_counterexample :
    C3g0.key = none ∧ C3g1.key = some "PK3" ∧
    (revokeTokenAsync (.ok ()) C3g1).1 = .ok () ∧
    ((revokeTokenAsync (.ok ()) C3g1).2.1).key = some "PK3" ∧
    (getTokenAsync C3env2 (revokeTokenAsync (.ok ()) C3g1).2.1).2.2.2 = 0 :=
  ⟨rfl, rfl, rfl, rfl, rfl⟩

/-- C3 (amended): a successful `revokeToken()` re-applies `configure` with
the manager's current settings — `key`, `keyFile`, `sub`, `scope` and
`additionalClaims` as they stand at revoke time (including any key or
issuer resolved from the key file since construction; a falsy issuer
becomes `none`) — and clears `token`, `expiresAt` and `rawToken`, so
`hasExpired()` is `true` afterwards; a subsequent `getToken()` performs a
fresh exchange (one network call) but, the resolved key being retained,
does not re-read the key file. -/
theorem C3_revoke_applies_current_config (g : GoogleToken) (env : Env) (now : Int)
    (htok : jsTruthyStr g.token = true) (hkey : jsTruthyStr g.key = true) :
    ((revokeTokenAsync (.ok ()) g).2.1).key = g.key ∧
    ((revokeTokenAsync (.ok ()) g).2.1).keyFile = g.keyFile ∧
    ((revokeTokenAsync (.ok ()) g).2.1).sub = g.sub ∧
    ((revokeTokenAsync (.ok ()) g).2.1).scope = g.scope ∧
    ((revokeTokenAsync (.ok ()) g).2.1).additionalClaims = g.additionalClaims ∧
    ((revokeTokenAsync (.ok ()) g).2.1).iss = jsOrStr g.iss none ∧
    ((revokeTokenAsync (.ok ()) g).2.1).token = none ∧
    ((revokeTokenAsync (.ok ()) g).2.1).expiresAt = none ∧
    ((revokeTokenAsync (.ok ()) g).2.1).rawToken = none ∧
    hasExpired now (revokeTokenAsync (.ok ()) g).2.1 = true ∧
    (getTokenAsync env (revokeTokenAsync (.ok ()) g).2.1).2.2.1 = 1 ∧
    (getTokenAsync env (revokeTokenAsync (.ok ()) g).2.1).2.2.2 = 0 := by
  have hcond : (!jsTruthyStr g.token) = false := by rw [htok]; rfl
  have hkf : (!jsTruthyStr g.key) = false := by rw [hkey]; rfl
  cases hs : g.scope with
  | none =>
      simp [revokeTokenAsync, hcond, configure, getTokenAsync, hasExpired,
        jsTruthyStr_none_eq, hkf, hs]
  | some s =>
      simp [revokeTokenAsync, hcond, configure, getTokenAsync, hasExpired,
        jsTruthyStr_none_eq, hkf, hs]

/-- C3 witness: the amended theorem applied at the post-acquisition state
`C3g1`, whose token and resolved key are both truthy. -/
theorem C3_revoke_applies_current_config_witness :
    ((revokeTokenAsync (.ok ()) C3g1).2.1).key = C3g1.key ∧
    ((revokeTokenAsync (.ok ()) C3g1).2.1).keyFile = C3g1.keyFile ∧
    ((revokeTokenAsync (.ok ()) C3g1).2.1).sub = C3g1.sub ∧
    ((revokeTokenAsync (.ok ()) C3g1).2.1).scope = C3g1.scope ∧
    ((revokeTokenAsync (.ok ()) C3g1).2.1).additionalClaims = C3g1.additionalClaims ∧
    ((revokeTokenAsync (.ok ()) C3g1).2.1).iss = jsOrStr C3g1.iss none ∧
    ((revokeTokenAsync (.ok ()) C3g1).2.1).token = none ∧
    ((revokeTokenAsync (.ok ()) C3g1).2.1).expiresAt = none ∧
    ((revokeTokenAsync (.ok ()) C3g1).2.1).rawToken = none ∧
    hasExpired 20000 (revokeTokenAsync (.ok ()) C3g1).2.1 = true ∧
    (getTokenAsync C3env2 (revokeTokenAsync (.ok ()) C3g1).2.1).2.2.1 = 1 ∧
    (getTokenAsync C3env2 (revokeTokenAsync (.ok ()) C3g1).2.1).2.2.2 = 0 :=
  C3_revoke_applies_current_config C3g1 C3env2 20000 (by decide) (by decide)

/-! ### Claim C4 -/

/-- C4: a failed exchange (transport error or non-2xx response) clears the
stored token and the local expiry-tracking field `tokenExpires` before the
error is surfaced, and `hasExpired()` returns `true` at every later
instant — no stale token survives a failed refresh. -/
theorem C4_failed_exchange_clears_token (now now2 : Int) (g : GoogleToken)
    (e : HttpError) :
    ((requestToken now g (.failure e)).2).token = none ∧
    ((requestToken now g (.failure e)).2).tokenExpires = none ∧
    hasExpired now2 (requestToken now g (.failure e)).2 = true ∧
    ∃ err, (requestToken now g (.failure e)).1 = .error err := by
  refine ⟨rfl, rfl, by simp [requestToken, hasExpired, jsTruthyStr], ?_⟩
  exact ⟨_, rfl⟩

/-! ### Claim C5 -/

/-- An error response whose body carries `error` and a present but empty
`error_description`. -/
def C5e : HttpError :=
  { responseData := some { error := some "invalid_grant", error_description := some "" } }

/-- C5 counterexample: with body
`{"error": "invalid_grant", "error_description": ""}` the
`error_description` field is present, yet the synthesized message is
`"invalid_grant"` without the `": "` suffix — the source tests the field
for truthiness, not presence, so the claim's "exactly when
error_description is present" fails. -/
theorem C5_counterexample :
    (requestToken 1000 (mkGoogleToken { key := some "PK5" }) (.failure C5e)).1 =
      .error (.simple "invalid_grant") ∧
    JsError.simple "invalid_grant" ≠ .simple ("invalid_grant" ++ (": " ++ "")) :=
  ⟨rfl, by decide⟩

/-- C5 (amended): when the error body's `error` field is truthy (present
and non-empty), the surfaced message is the `error` value followed by
`": "` and the `error_description` value exactly when `error_description`
is also truthy (present and non-empty), and just the `error` value
otherwise; when `error` is absent or empty (including when there is no
response body at all), the underlying transport error is rethrown
unchanged. -/
theorem C5_error_message_synthesis (now : Int) (g : GoogleToken) (e : HttpError) :
    (jsTruthyStr (e.responseData.getD {}).error = true →
      jsTruthyStr (e.responseData.getD {}).error_description = true →
      (requestToken now g (.failure e)).1 =
        .error (.simple ((e.responseData.getD {}).error.getD "" ++
          (": " ++ (e.responseData.getD {}).error_description.getD "")))) ∧
    (jsTruthyStr (e.responseData.getD {}).error = true →
      jsTruthyStr (e.responseData.getD {}).error_description = false →
      (requestToken now g (.failure e)).1 =
        .error (.simple ((e.responseData.getD {}).error.getD ""))) ∧
    (jsTruthyStr (e.responseData.getD {}).error = false →
      (requestToken now g (.failure e)).1 = .error (.transport e)) := by
  refine ⟨fun h1 h2 => ?_, fun h1 h2 => ?_, fun h1 => ?_⟩
  · simp [requestToken, h1, h2]
  · simp [requestToken, h1, h2]
  · simp [requestToken, h1]

/-- An error response matching the spec's own test case. -/
def C5ew : HttpError :=
  { responseData := some { error := some "invalid_grant", error_description := some "bad" } }

/-- C5 witness: the amended theorem at the spec's test body
`{"error": "invalid_grant", "error_description": "bad"}` gives exactly the
message `invalid_grant: bad`. -/
theorem C5_error_message_synthesis_witness :
    (requestToken 1000 (mkGoogleToken { key := some "PK5" }) (.failure C5ew)).1 =
      .error (.simple ("invalid_grant" ++ (": " ++ "bad"))) :=
  (C5_error_message_synthesis 1000 (mkGoogleToken { key := some "PK5" }) C5ew).1
    (by decide) (by decide)

/-! ### Claim C6 -/

/-- A manager holding no token. -/
def C6g : GoogleToken := mkGoogleToken { key := some "PK6" }

/-- C6: `revokeToken()` on a manager holding no token fails with the
`No token to revoke.` error, leaves the state untouched and performs zero
network calls, whatever the network would have answered. -/
theorem C6_revoke_without_token (net : Except JsError Unit) (g : GoogleToken)
    (h : g.token = none) :
    revokeTokenAsync net g = (.error (.simple "No token to revoke."), g, 0) := by
  simp [revokeTokenAsync, h, jsTruthyStr_none_eq]

/-- C6 witness: the theorem at a concrete freshly constructed manager. -/
theorem C6_revoke_without_token_witness :
    revokeTokenAsync (.ok ()) C6g = (.error (.simple "No token to revoke."), C6g, 0) :=
  C6_revoke_without_token (.ok ()) C6g rfl

/-! ### Claim C7 -/

/-- A manager holding a valid token, for the revoke-failure scenario. -/
def C7g : GoogleToken :=
  { initFields with token := some "tok7", expiresAt := some 99000, key := some "PK7" }

/-- C7: when the revocation network call fails, `revokeToken()` propagates
the error and returns the state exactly as it was — every field unchanged
(only a successful revoke resets state); exactly one network call is
made. -/
theorem C7_revoke_failure_leaves_state (e : JsError) (g : GoogleToken)
    (h : jsTruthyStr g.token = true) :
    revokeTokenAsync (.error e) g = (.error e, g, 1) := by
  have hc : (!jsTruthyStr g.token) = false := by rw [h]; rfl
  simp [revokeTokenAsync, hc]

/-- C7 witness: the theorem at a concrete token-holding manager and a
concrete transport error. -/
theorem C7_revoke_failure_leaves_state_witness :
    revokeTokenAsync (.error (.simple "boom")) C7g = (.error (.simple "boom"), C7g, 1) :=
  C7_revoke_failure_leaves_state (.simple "boom") C7g (by decide)

/-! ### Claim C8 -/

/-- C8: when `hasExpired()` is `false`, `getToken()` returns the cached
token with the state untouched and zero network calls and zero file reads;
consequently, starting from an expired state with a raw key, a first
`getToken()` that leaves the token valid at the time of a second
`getToken()` makes exactly one network call between the two. -/
theorem C8_cached_token_short_circuit :
    (∀ env g, hasExpired env.now g = false →
      getTokenAsync env g = (.ok g.token, g, 0, 0)) ∧
    (∀ env1 env2 g, hasExpired env1.now g = true → jsTruthyStr g.key = true →
      hasExpired env2.now (getTokenAsync env1 g).2.1 = false →
      (getTokenAsync env1 g).2.2.1 = 1 ∧
      getTokenAsync env2 (getTokenAsync env1 g).2.1 =
        (.ok ((getTokenAsync env1 g).2.1).token, (getTokenAsync env1 g).2.1, 0, 0) ∧
      (getTokenAsync env1 g).2.2.1 +
        (getTokenAsync env2 (getTokenAsync env1 g).2.1).2.2.1 = 1) := by
  have part1 : ∀ env g, hasExpired env.now g = false →
      getTokenAsync env g = (.ok g.token, g, 0, 0) := by
    intro env g h
    simp [getTokenAsync, h]
  refine ⟨part1, fun env1 env2 g h1 hk h2 => ?_⟩
  have hkf : (!jsTruthyStr g.key) = false := by rw [hk]; rfl
  have hcalls : (getTokenAsync env1 g).2.2.1 = 1 := by
    simp [getTokenAsync, h1, hkf]
  refine ⟨hcalls, part1 env2 _ h2, ?_⟩
  rw [hcalls, part1 env2 _ h2]
  rfl

/-- A manager with a raw key and no token yet. -/
def C8g : GoogleToken := { initFields with key := some "PK8", iss := some "iss8" }

/-- Environment of the first `getToken()`: successful exchange at t=5000ms
with a 100s lifetime. -/
def C8env1 : Env :=
  { now := 5000
    credResult := .ok { privateKey := "PK8" }
    exchange := .success { access_token := some "tok8", expires_in := some 100 } }

/-- Environment of the second `getToken()`, 1s later, well inside the
validity window. -/
def C8env2 : Env :=
  { now := 6000
    credResult := .ok { privateKey := "PK8" }
    exchange := .success { access_token := some "tok8b", expires_in := some 100 } }

/-- C8 witness: the theorem's second part at the concrete two-call
scenario — the first call makes one network call, the second returns the
cache untouched with zero calls, one call total. -/
theorem C8_cached_token_short_circuit_witness :
    (getTokenAsync C8env1 C8g).2.2.1 = 1 ∧
    getTokenAsync C8env2 (getTokenAsync C8env1 C8g).2.1 =
      (.ok ((getTokenAsync C8env1 C8g).2.1).token, (getTokenAsync C8env1 C8g).2.1, 0, 0) ∧
    (getTokenAsync C8env1 C8g).2.2.1 +
      (getTokenAsync C8env2 (getTokenAsync C8env1 C8g).2.1).2.2.1 = 1 :=
  C8_cached_token_short_circuit.2 C8env1 C8env2 C8g (by decide) (by decide) (by decide)

/-! ### Claim C9 -/

/-- C9: in the JWT payload, `additionalClaims` is merged after the
standard claims `{iss, scope, aud, exp, iat, sub}` — on a key collision
the additional claim's value wins, and a key the additional claims do not
carry keeps its standard-claims value. -/
theorem C9_additional_claims_override (iat : Int) (g : GoogleToken) (k : String) :
    (∀ v, (g.additionalClaims.getD JsObject.empty) k = some v →
      requestPayload iat g k = some v) ∧
    ((g.additionalClaims.getD JsObject.empty) k = none →
      requestPayload iat g k = stdClaims iat g k) := by
  constructor
  · intro v hv
    simp [requestPayload, objectAssign, hv]
  · intro hv
    simp [requestPayload, objectAssign, hv]

/-- Additional claims overriding the standard `scope`. -/
def C9claims : JsObject := fun k =>
  if k = "scope" then some (.str "claimedScope") else none

/-- A manager configured with both a scope and a colliding additional
claim. -/
def C9g : GoogleToken :=
  { initFields with
    iss := some "iss9"
    scope := some "orig scope"
    additionalClaims := some C9claims }

/-- C9 witness: the theorem applied at the colliding key `"scope"` (the
additional value wins) and at the standard key `"exp"` (unchanged). -/
theorem C9_additional_claims_override_witness :
    requestPayload 7 C9g "scope" = some (.str "claimedScope") ∧
    requestPayload 7 C9g "exp" = stdClaims 7 C9g "exp" :=
  ⟨(C9_additional_claims_override 7 C9g "scope").1 (.str "claimedScope") (by decide),
   (C9_additional_claims_override 7 C9g "exp").2 (by decide)⟩

/-! ### Claim C10 -/

/-- C10: a successful exchange whose response omits `access_token` or
carries an empty one stores that falsy value as the token, yet
`hasExpired()` returns `true` at every instant — even when `expires_in`
was present and an `expiresAt` was recorded — so the value is never served
from cache and a subsequent `getToken()` (key configured) performs a fresh
exchange: one network call, no file read. -/
theorem C10_falsy_access_token_not_cached (now now2 : Int) (g : GoogleToken)
    (rd : TokenData) (env : Env)
    (h : rd.access_token = none ∨ rd.access_token = some "")
    (hkey : jsTruthyStr g.key = true) :
    ((requestToken now g (.success rd)).2).token = rd.access_token ∧
    hasExpired now2 (requestToken now g (.success rd)).2 = true ∧
    (getTokenAsync env (requestToken now g (.success rd)).2).2.2.1 = 1 ∧
    (getTokenAsync env (requestToken now g (.success rd)).2).2.2.2 = 0 := by
  have hkf : (!jsTruthyStr g.key) = false := by rw [hkey]; rfl
  have htok : jsTruthyStr rd.access_token = false := by
    rcases h with h | h <;> simp [h, jsTruthyStr]
  refine ⟨rfl, ?_, ?_, ?_⟩
  · simp [requestToken, hasExpired, htok]
  · simp [getTokenAsync, requestToken, hasExpired, htok, hkf]
  · simp [getTokenAsync, requestToken, hasExpired, htok, hkf]

/-- A manager with a raw key, about to receive an empty `access_token`. -/
def C10g : GoogleToken := { initFields with key := some "PK10", iss := some "iss10" }

/-- An exchange response with an empty `access_token` but a real 100s
`expires_in`. -/
def C10rd : TokenData := { access_token := some "", expires_in := some 100 }

/-- Environment of the follow-up `getToken()` at t=6000ms, before the
recorded expiry. -/
def C10env : Env :=
  { now := 6000
    credResult := .ok { privateKey := "PK10" }
    exchange := .success { access_token := some "tok10", expires_in := some 100 } }

/-- C10 witness: the theorem at the concrete empty-token response with a
future recorded expiry (expiresAt = 105000ms, queried at 6000ms). -/
theorem C10_falsy_access_token_not_cached_witness :
    ((requestToken 5000 C10g (.success C10rd)).2).token = C10rd.access_token ∧
    hasExpired 6000 (requestToken 5000 C10g (.success C10rd)).2 = true ∧
    (getTokenAsync C10env (requestToken 5000 C10g (.success C10rd)).2).2.2.1 = 1 ∧
    (getTokenAsync C10env (requestToken 5000 C10g (.success C10rd)).2).2.2.2 = 0 :=
  C10_falsy_access_token_not_cached 5000 6000 C10g C10rd C10env (Or.inr rfl) (by decide)

end GToken
